import Mathlib

/-!
# Verification of the WY-Wallet expense tracker (src/app.py)

Shallow embedding of the Streamlit expense-tracking app `src/app.py`:
the SQLite-backed ledger (`init_db`, `run_query` call sites), the
receipt-interpreter post-processing (`ai_analyze_receipt`), the tab-1
cleaning/confirm flow, the tab-2 reporting aggregation, the tab-3
record listing and the tab-4 clear-all operation, together with
theorems checking the specification's claims about them.

Conventions of the embedding:
* Python floats (JSON numbers, SQLite REAL) are modelled as `ℚ`; all
  amounts appearing in the claims are small decimals that floats
  represent exactly.
* A Python exception that the source does not catch is modelled as
  `none` / a dedicated outcome constructor.
* SQLite `TEXT` dates hold ISO `YYYY-MM-DD` strings, on which SQLite's
  string comparison coincides with lexicographic comparison of the
  (year, month, day) triple; dates are therefore modelled as such
  triples ordered lexicographically.
-/

/-- A calendar date, as stored in the `date` column (ISO string in
SQLite, compared lexicographically, which equals the lexicographic
order on (year, month, day)). -/
structure Date where
  year : Nat
  month : Nat
  day : Nat
deriving DecidableEq, Repr

/-- Strict lexicographic order on dates: the order SQLite's `ORDER BY
date` induces on ISO-formatted TEXT dates. -/
def dateLt (a b : Date) : Prop :=
  a.year < b.year ∨
    (a.year = b.year ∧
      (a.month < b.month ∨ (a.month = b.month ∧ a.day < b.day)))

instance (a b : Date) : Decidable (dateLt a b) := by
  unfold dateLt; exact inferInstance

/-- A JSON value, as produced by `json.loads` on the model response
text (Python: `None`/`bool`/number/`str`/`list`/`dict`). -/
inductive JVal where
  | jnull : JVal
  | jbool : Bool → JVal
  | jnum : ℚ → JVal
  | jstr : String → JVal
  | jarr : List JVal → JVal
  | jobj : List (String × JVal) → JVal

/-- Python truthiness (`if ai_data_list:`): `None`, `False`, `0`, `""`,
`[]`, `{}` are falsy, everything else truthy. -/
def pyTruthy : JVal → Bool
  | .jnull => false
  | .jbool b => b
  | .jnum q => decide (q ≠ 0)
  | .jstr s => !s.isEmpty
  | .jarr xs => !xs.isEmpty
  | .jobj fs => !fs.isEmpty

/-- `dict.get(k)` on a parsed JSON object (we assume, as `json.loads`
guarantees for its output, that keys are distinct, so `find?` picks
the unique binding). -/
def jlookup (fs : List (String × JVal)) (k : String) : Option JVal :=
  (fs.find? (fun p => p.1 == k)).map (fun p => p.2)

/-- Value of a run of decimal digit characters. -/
def digitsVal (ds : List Char) : Nat :=
  ds.foldl (fun a c => a * 10 + (c.toNat - 48)) 0

/-- Split a leading run of decimal digits from a character list. -/
def takeDigits : List Char → List Char × List Char
  | [] => ([], [])
  | c :: rest =>
      if c.isDigit then
        let p := takeDigits rest
        (c :: p.1, p.2)
      else ([], c :: rest)

/-- Exponent part after `e`/`E` in Python's `float()`: an optional
sign followed by at least one digit, consuming the whole rest. -/
def parseExpPart : List Char → Option Int
  | '+' :: r =>
      if !r.isEmpty && r.all Char.isDigit then some (digitsVal r) else none
  | '-' :: r =>
      if !r.isEmpty && r.all Char.isDigit then some (-(digitsVal r : Int))
      else none
  | r =>
      if !r.isEmpty && r.all Char.isDigit then some (digitsVal r) else none

/-- Unsigned decimal literal accepted by Python's `float()`:
`digits [. digits] [exp]` or `. digits [exp]`, with at least one digit
overall (`inf`/`nan` are not modelled: no claim involves them, and ℚ
has no value for them). -/
def parseFloatCore (cs : List Char) : Option ℚ :=
  let ip := takeDigits cs
  match ip.2 with
  | [] => if ip.1.isEmpty then none else some (digitsVal ip.1)
  | '.' :: rest2 =>
      let fp := takeDigits rest2
      if ip.1.isEmpty && fp.1.isEmpty then none
      else
        let base : ℚ :=
          (digitsVal ip.1 : ℚ) + (digitsVal fp.1 : ℚ) / ((10 : ℚ) ^ fp.1.length)
        match fp.2 with
        | [] => some base
        | 'e' :: r => (parseExpPart r).map (fun e => base * (10 : ℚ) ^ e)
        | 'E' :: r => (parseExpPart r).map (fun e => base * (10 : ℚ) ^ e)
        | _ => none
  | 'e' :: r =>
      if ip.1.isEmpty then none
      else (parseExpPart r).map (fun e => (digitsVal ip.1 : ℚ) * (10 : ℚ) ^ e)
  | 'E' :: r =>
      if ip.1.isEmpty then none
      else (parseExpPart r).map (fun e => (digitsVal ip.1 : ℚ) * (10 : ℚ) ^ e)
  | _ => none

/-- ASCII whitespace as stripped by Python's `float()`. -/
def isSpaceChar (c : Char) : Bool :=
  c == ' ' || c == '\t' || c == '\n' || c == '\r' || c == '\x0b' || c == '\x0c'

/-- Strip leading and trailing whitespace from a character list. -/
def stripChars (cs : List Char) : List Char :=
  ((cs.dropWhile isSpaceChar).reverse.dropWhile isSpaceChar).reverse

/-- Python's `float(s)` on a string: surrounding whitespace stripped,
optional sign, then a decimal literal; `none` models the raised
`ValueError` on any other string. -/
def parseFloatStr (s : String) : Option ℚ :=
  match stripChars s.toList with
  | '+' :: r => parseFloatCore r
  | '-' :: r => (parseFloatCore r).map (fun q => -q)
  | r => parseFloatCore r

/-- Python's `float(x)` on a value coming out of `json.loads`:
numbers pass through, booleans become 0/1, numeric strings are parsed,
and `None`, non-numeric strings, lists and dicts raise (`none`). -/
def pyFloat : JVal → Option ℚ
  | .jnum q => some q
  | .jbool b => some (if b then 1 else 0)
  | .jstr s => parseFloatStr s
  | _ => none

/-- `pd.to_datetime` on an ISO `YYYY-MM-DD` string: the three
dash-separated fields must be numeric, with a valid month and day
(`none` models the exception pandas raises on an unparseable string;
other textual formats pandas accepts are outside the inputs the claims
consider). -/
def splitOnChar (sep : Char) : List Char → List (List Char)
  | [] => [[]]
  | c :: rest =>
      match splitOnChar sep rest with
      | [] => [[]]
      | g :: gs => if c == sep then [] :: g :: gs else (c :: g) :: gs

/-- A nonempty all-digit field, as a number. -/
def digitsNat? (cs : List Char) : Option Nat :=
  if !cs.isEmpty && cs.all Char.isDigit then some (digitsVal cs) else none

def parseDateStr (s : String) : Option Date :=
  match splitOnChar '-' s.toList with
  | [y, m, d] =>
      match digitsNat? y, digitsNat? m, digitsNat? d with
      | some yn, some mn, some dn =>
          if 1 ≤ mn && mn ≤ 12 && 1 ≤ dn && dn ≤ 31 then
            some ⟨yn, mn, dn⟩
          else none
      | _, _, _ => none
  | _ => none

/-- `pd.to_datetime(x).date()` on the raw JSON field value: a string
is parsed; `None` and every non-string value end in the exception
branch (`pd.to_datetime(None)` yields `NaT`, whose `.date()` raises). -/
def toDatetime : JVal → Option Date
  | .jstr s => parseDateStr s
  | _ => none

/-- The date computation of the tab-1 cleaning loop:
`d_str = item.get('date', str(datetime.now().date()))` followed by
`d_obj = pd.to_datetime(d_str).date()` inside `try`, with
`d_obj = datetime.now().date()` in the `except` branch. When the key
is absent the default `str(today)` re-parses to `today`. -/
def cleanDate (today : Date) (v : Option JVal) : Date :=
  match v with
  | none => today
  | some jv => (toDatetime jv).getD today

/-- A draft record of the Reconciliation Buffer: the dict built by the
tab-1 cleaning loop (keys `date, item, category, amount, type, note`).
`item`, `category` and `note` are `dict.get` pass-throughs, so they
keep the raw JSON value. -/
structure Draft where
  date : Date
  item : JVal
  category : JVal
  amount : ℚ
  type : String
  note : JVal

/-- One iteration of the tab-1 cleaning loop over `ai_data_list`.
The `try/except` covers only the date computation; the call
`float(item.get('amount', 0.0))` is outside it, so when `float`
raises (amount present but `null`, a non-numeric string, a list or a
dict) the exception propagates and the whole handler aborts: `none`.
Iterating items that are not dicts (`item.get` on them) also raises. -/
def clean_item (today : Date) (item : JVal) : Option Draft :=
  match item with
  | .jobj fs =>
      match pyFloat ((jlookup fs "amount").getD (.jnum 0)) with
      | none => none
      | some a =>
          some { date := cleanDate today (jlookup fs "date")
                 item := (jlookup fs "item").getD (.jstr "未知商品")
                 category := (jlookup fs "category").getD (.jstr "其他")
                 amount := a
                 type := "Expense"
                 note := (jlookup fs "note").getD (.jstr "") }
  | _ => none

/-- The whole cleaning loop: build the `clean_data` list, `none` when
any iteration raises (the uncaught exception aborts the handler before
`st.session_state['pending_items']` is assigned, so no draft of the
batch survives). -/
def clean_data (today : Date) (items : List JVal) : Option (List Draft) :=
  match items with
  | [] => some []
  | it :: rest =>
      match clean_item today it, clean_data today rest with
      | some d, some ds => some (d :: ds)
      | _, _ => none

/-- `ai_analyze_receipt` post-processing of the parsed response
(line `if isinstance(data, dict): data = [data]`): a bare JSON object
is wrapped into a one-element array, everything else is returned
unchanged. -/
def ai_normalize : JVal → JVal
  | .jobj fs => .jarr [.jobj fs]
  | d => d

/-- `ai_analyze_receipt`, from the `generate_content` response on:
the argument is the parse of the stripped response text (`.error e`
when the call or `json.loads` raised with message `e`). On success the
normalized data is returned with no error; the `except` branch returns
`(None, "AI 识别出错: ...")` — a value, not a raised exception. -/
def ai_analyze_receipt (response : Except String JVal) :
    Option JVal × Option String :=
  match response with
  | .error e => (none, some ("AI 识别出错: " ++ e))
  | .ok data => (some (ai_normalize data), none)

/-- The tab-1 session state relevant to the claims:
`st.session_state['pending_items']` (the Reconciliation Buffer),
absent (`none`) or holding the current draft list. -/
structure SessionState where
  pending_items : Option (List Draft)

/-- Observable outcome of the upload/analyze handler. `exn` is an
exception that escapes the handler (no `st.success`/`st.error` runs,
the buffer keeps its previous value). -/
inductive Outcome where
  | savedDrafts : Outcome
  | errorShown : String → Outcome
  | exn : Outcome
  | noop : Outcome

/-- The tab-1 analyze handler after `ai_analyze_receipt` returns
`(ai_data_list, error)`: `if ai_data_list:` (Python truthiness) runs
the cleaning loop and stores the result in the buffer; `elif error:`
shows the error; otherwise nothing happens. Iterating a truthy
non-list raises (`.get` on its elements / non-iterable). -/
def handle_analyze (st : SessionState) (today : Date)
    (res : Option JVal × Option String) : SessionState × Outcome :=
  match res with
  | (some (.jarr (x :: xs)), _) =>
      match clean_data today (x :: xs) with
      | some ds => (⟨some ds⟩, .savedDrafts)
      | none => (st, .exn)
  | (some v, err) =>
      if pyTruthy v then (st, .exn)
      else
        match err with
        | some e => (st, .errorShown e)
        | none => (st, .noop)
  | (none, some e) => (st, .errorShown e)
  | (none, none) => (st, .noop)

/-- A row of the `transactions` table
(`id INTEGER PRIMARY KEY AUTOINCREMENT, date TEXT, item TEXT,
category TEXT, type TEXT, amount REAL, note TEXT`; the `created_at`
column is not used by any claim). The `item`/`category`/`note` values
inserted by the confirm loop are the draft's raw values. -/
structure Txn where
  id : Nat
  date : Date
  item : JVal
  category : JVal
  type : String
  amount : ℚ
  note : JVal

/-- A row of the `categories` table
(`id INTEGER PRIMARY KEY AUTOINCREMENT, name TEXT UNIQUE, type TEXT`). -/
structure Cat where
  id : Nat
  name : String
  type : String
deriving DecidableEq, Repr

/-- The SQLite database file `expenses_pro.db`: each table is `none`
while it does not exist, `some rows` once created. -/
structure DB where
  transactions : Option (List Txn)
  categories : Option (List Cat)

/-- The transaction the confirm loop's `INSERT` creates from a draft
row, given the id AUTOINCREMENT assigns. -/
def draftToTxn (i : Nat) (r : Draft) : Txn :=
  { id := i, date := r.date, item := r.item, category := r.category,
    type := r.type, amount := r.amount, note := r.note }

/-- One `INSERT INTO transactions ...` through `run_query`: appends
the row with the next AUTOINCREMENT id; on a missing table SQLite
errors, `run_query` catches it and nothing is written. -/
def insert_transaction (db : DB) (next : Nat) (r : Draft) : DB × Nat :=
  match db.transactions with
  | some ts =>
      ({ db with transactions := some (ts ++ [draftToTxn next r]) }, next + 1)
  | none => (db, next)

/-- The tab-1 confirm loop (`for row in edited_df:`): inserts every
row and counts it (`count += 1` runs whether or not `run_query`
succeeded). Returns the database, the next free id and `count`. -/
def confirm_save (db : DB) (next : Nat) (rows : List Draft) :
    DB × Nat × Nat :=
  match rows with
  | [] => (db, next, 0)
  | r :: rest =>
      let p := insert_transaction db next r
      let q := confirm_save p.1 p.2 rest
      (q.1, q.2.1, q.2.2 + 1)

/-- The transactions a batch of drafts turns into, with ids assigned
consecutively from `next`. -/
def mkTxns (next : Nat) : List Draft → List Txn
  | [] => []
  | r :: rest => draftToTxn next r :: mkTxns (next + 1) rest

/-- The nine default category rows seeded by `init_db`. -/
def default_cats : List (String × String) :=
  [("饮食", "Expense"), ("交通", "Expense"), ("购物", "Expense"),
   ("居住", "Expense"), ("娱乐", "Expense"), ("医疗", "Expense"),
   ("工资", "Income"), ("投资", "Income"), ("其他", "Income")]

/-- The seeded category rows with their AUTOINCREMENT ids 1..9. -/
def seeded_cats : List Cat :=
  default_cats.enum.map (fun p => ⟨p.1 + 1, p.2.1, p.2.2⟩)

/-- `init_db`: `CREATE TABLE IF NOT EXISTS` for both tables, then
`SELECT count(*) FROM categories` and, when the count is 0, insert the
nine `default_cats` rows. -/
def init_db (db : DB) : DB :=
  let trans := db.transactions.getD []
  let cats := db.categories.getD []
  if cats.length = 0 then
    { transactions := some trans, categories := some seeded_cats }
  else
    { transactions := some trans, categories := some cats }

/-- The tab-4 clear-all button: `DELETE FROM transactions` (no
`WHERE`), touching no other table; on a missing table the error is
caught by `run_query` and nothing changes. -/
def clear_all (db : DB) : DB :=
  match db.transactions with
  | some _ => { db with transactions := some [] }
  | none => db

/-- Modelled from the spec: no delete-by-id operation exists in
src/app.py (tab 4 only has clear-all); the spec attributes one to the
other revisions of this corpus: "delete-by-id(id) → success/failure
... deleting a nonexistent id is reported as failure, not silently
ignored". The row with the given id is removed and the reported flag
is success exactly when such a row existed. -/
def delete_by_id (db : DB) (i : Nat) : DB × Bool :=
  match db.transactions with
  | none => (db, false)
  | some ts =>
      if ts.any (fun t => t.id == i) then
        ({ db with transactions := some (ts.filter (fun t => t.id != i)) },
         true)
      else (db, false)

/-- Output order of the tab-3 query
`SELECT ... ORDER BY date DESC, id DESC`: `a` may come before `b` iff
`b`'s date is strictly earlier, or the dates are equal and `b`'s id is
no larger. -/
def txnBefore (a b : Txn) : Prop :=
  dateLt b.date a.date ∨ (a.date = b.date ∧ b.id ≤ a.id)

instance (a b : Txn) : Decidable (txnBefore a b) := by
  unfold txnBefore; exact inferInstance

/-- The tab-3 record listing (`data_log`): all rows of `transactions`
ordered by date descending with ties broken by id descending
(a missing table makes `run_query` return `[]`). -/
def data_log (db : DB) : List Txn :=
  match db.transactions with
  | some ts => List.insertionSort txnBefore ts
  | none => []

/-- The tab-2 month filter mask
`(df['年份'] == sel_year) & (df['月份'] == sel_month)`, where `年份` and
`月份` are extracted from the parsed `date` column. -/
def month_mask (y m : Nat) (t : Txn) : Bool :=
  t.date.year == y && t.date.month == m

/-- `filtered_df = df[mask]` for the by-month view. -/
def filtered_df (db : List Txn) (y m : Nat) : List Txn :=
  db.filter (month_mask y m)

/-- Tab-2 KPI `inc = filtered_df[filtered_df['类型']=='Income']['金额'].sum()`. -/
def tab2_inc (db : List Txn) (y m : Nat) : ℚ :=
  (((filtered_df db y m).filter (fun t => t.type == "Income")).map
    Txn.amount).sum

/-- Tab-2 KPI `exp = filtered_df[filtered_df['类型']=='Expense']['金额'].sum()`. -/
def tab2_exp (db : List Txn) (y m : Nat) : ℚ :=
  (((filtered_df db y m).filter (fun t => t.type == "Expense")).map
    Txn.amount).sum

/-- Tab-2 KPI `balance = inc - exp`. -/
def tab2_balance (db : List Txn) (y m : Nat) : ℚ :=
  tab2_inc db y m - tab2_exp db y m

/-- The startup configuration read from `st.secrets`. Only
`GOOGLE_API_KEY` is read at process start; `gcp_service_account` is
read later, inside `backup_to_cloud`, and the store is the local
SQLite file `expenses_pro.db`, needing no URL or key. -/
structure Secrets where
  GOOGLE_API_KEY : Option String
  gcp_service_account : Option String

/-- State of the process after the startup configuration block
(lines 17-31 of src/app.py). -/
structure StartupState where
  my_api_key : String
  error_shown : Bool
  halted : Bool
deriving DecidableEq, Repr

/-- The startup block: `my_api_key = st.secrets["GOOGLE_API_KEY"]`
with `except: my_api_key = ""; st.error(...)`. `st.error` only renders
a message — there is no `st.stop()` and no re-raise — so the script
continues on every path and `halted` is never set. -/
def startup (s : Secrets) : StartupState :=
  match s.GOOGLE_API_KEY with
  | some k => { my_api_key := k, error_shown := false, halted := false }
  | none => { my_api_key := "", error_shown := true, halted := false }

theorem txnBefore_total (a b : Txn) : txnBefore a b ∨ txnBefore b a := by
  unfold txnBefore dateLt
  rcases a.date with ⟨y1, m1, d1⟩
  rcases b.date with ⟨y2, m2, d2⟩
  simp only [Date.mk.injEq]
  omega

theorem txnBefore_trans (a b c : Txn) :
    txnBefore a b → txnBefore b c → txnBefore a c := by
  unfold txnBefore dateLt
  rcases a.date with ⟨y1, m1, d1⟩
  rcases b.date with ⟨y2, m2, d2⟩
  rcases c.date with ⟨y3, m3, d3⟩
  simp only [Date.mk.injEq]
  omega

instance : IsTotal Txn txnBefore := ⟨txnBefore_total⟩

instance : IsTrans Txn txnBefore := ⟨txnBefore_trans⟩

/-- A fixed "today" for concrete instances. -/
def today0 : Date := ⟨2026, 1, 2⟩

/-- Literal record 1 of the spec's reporting example:
2024-01-05, Income, 100.00. -/
def rec1 : Txn :=
  { id := 1, date := ⟨2024, 1, 5⟩, item := .jstr "salary",
    category := .jstr "工资", type := "Income", amount := 100,
    note := .jstr "" }

/-- Literal record 2 of the spec's reporting example:
2024-01-10, Expense, 30.00. -/
def rec2 : Txn :=
  { id := 2, date := ⟨2024, 1, 10⟩, item := .jstr "groceries",
    category := .jstr "饮食", type := "Expense", amount := 30,
    note := .jstr "" }

/-- Literal record 3 of the spec's reporting example:
2024-02-01, Expense, 5.00 (outside the January window). -/
def rec3 : Txn :=
  { id := 3, date := ⟨2024, 2, 1⟩, item := .jstr "bus",
    category := .jstr "交通", type := "Expense", amount := 5,
    note := .jstr "" }

/-- The spec's literal three-record input set. -/
def demo_rows : List Txn := [rec1, rec2, rec3]

/-- A concrete database holding the demo rows. -/
def demo_db : DB :=
  { transactions := some demo_rows, categories := some seeded_cats }

/-- C3: any inference response whose text parses to a bare JSON object
(not an array) is wrapped by `ai_analyze_receipt` into a one-element
array around that object before it reaches the Reconciliation Buffer,
and no error is reported. -/
theorem bare_object_wrapped (fs : List (String × JVal)) :
    ai_analyze_receipt (Except.ok (JVal.jobj fs)) =
      (some (JVal.jarr [JVal.jobj fs]), none) := rfl

/-- C4: the tab-3 listing is sorted by date descending with ties on
the date broken by id descending, and it is a permutation of the
stored records. -/
theorem data_log_order (db : DB) :
    (data_log db).Pairwise
      (fun a b => dateLt b.date a.date ∨ (a.date = b.date ∧ b.id ≤ a.id)) ∧
    ∀ ts, db.transactions = some ts → (data_log db).Perm ts := by
  constructor
  · rcases h : db.transactions with _ | ts
    · simp [data_log, h]
    · simp only [data_log, h]
      exact List.sorted_insertionSort txnBefore ts
  · intro ts h
    simp only [data_log, h]
    exact List.perm_insertionSort txnBefore ts

/-- C4 witness: the sorted listing of the demo database is a
permutation of its three stored rows. -/
theorem data_log_order_witness :
    demo_db.transactions = some demo_rows ∧
    (data_log demo_db).Perm demo_rows :=
  ⟨rfl, (data_log_order demo_db).2 demo_rows rfl⟩

/-- C5: on the spec's literal three-record set with window year=2024,
month=1, the tab-2 dashboard computes income 100, expense 30, balance
70; the filtered frame is exactly the two January records (the
February record is excluded); every filtered record lies in the
window; and balance = income − expense holds for every input. -/
theorem tab2_report_window :
    tab2_inc demo_rows 2024 1 = 100 ∧
    tab2_exp demo_rows 2024 1 = 30 ∧
    tab2_balance demo_rows 2024 1 = 70 ∧
    filtered_df demo_rows 2024 1 = [rec1, rec2] ∧
    (∀ db y m t, t ∈ filtered_df db y m →
        t.date.year = y ∧ t.date.month = m) ∧
    (∀ db y m, tab2_balance db y m = tab2_inc db y m - tab2_exp db y m) := by
  refine ⟨?_, ?_, ?_, rfl, ?_, fun _ _ _ => rfl⟩
  · simp only [tab2_inc, filtered_df, month_mask, demo_rows, rec1, rec2, rec3,
      List.filter, List.map]
    norm_num
  · simp only [tab2_exp, filtered_df, month_mask, demo_rows, rec1, rec2, rec3,
      List.filter, List.map]
    norm_num
  · simp only [tab2_balance, tab2_inc, tab2_exp, filtered_df, month_mask,
      demo_rows, rec1, rec2, rec3, List.filter, List.map]
    norm_num
  intro db y m t ht
  simp only [filtered_df, List.mem_filter, month_mask, Bool.and_eq_true,
    beq_iff_eq] at ht
  exact ht.2

/-- C5 witness: the first demo record is in the 2024-01 window, and by
the window property its date fields match the window. -/
theorem tab2_report_window_witness :
    rec1 ∈ filtered_df demo_rows 2024 1 ∧
    rec1.date.year = 2024 ∧ rec1.date.month = 1 :=
  ⟨List.mem_cons_self rec1 [rec2],
   tab2_report_window.2.2.2.2.1 demo_rows 2024 1 rec1
     (List.mem_cons_self rec1 [rec2])⟩

/-- C6: when the inference call or the JSON parse raises,
`ai_analyze_receipt` returns the error as a value (no draft data), and
the tab-1 handler only displays it: the session state — in particular
the Reconciliation Buffer `pending_items` — is exactly what it was
before the call. -/
theorem ai_failure_untouched (st : SessionState) (today : Date) (e : String) :
    ai_analyze_receipt (Except.error e) = (none, some ("AI 识别出错: " ++ e)) ∧
    handle_analyze st today (ai_analyze_receipt (Except.error e)) =
      (st, Outcome.errorShown ("AI 识别出错: " ++ e)) ∧
    (handle_analyze st today (ai_analyze_receipt (Except.error e))).1.pending_items
      = st.pending_items :=
  ⟨rfl, rfl, rfl⟩

/-- C10: the tab-4 clear-all button empties the `transactions` table,
leaves the `categories` table untouched, and afterwards the tab-3
listing is empty. -/
theorem clear_all_frame (db : DB) (ts : List Txn)
    (h : db.transactions = some ts) :
    (clear_all db).transactions = some [] ∧
    (clear_all db).categories = db.categories ∧
    data_log (clear_all db) = [] := by
  simp [clear_all, h, data_log]

/-- C10 witness: clearing the demo database. -/
theorem clear_all_frame_witness :
    demo_db.transactions = some demo_rows ∧
    ((clear_all demo_db).transactions = some [] ∧
     (clear_all demo_db).categories = demo_db.categories ∧
     data_log (clear_all demo_db) = []) :=
  ⟨rfl, clear_all_frame demo_db demo_rows rfl⟩

/-- A cleaning batch containing any item whose iteration raises
produces no draft list at all (helper for the amount claims). -/
theorem clean_data_of_item_none (today : Date) (pre : List JVal)
    (it : JVal) (post : List JVal) (h : clean_item today it = none) :
    clean_data today (pre ++ it :: post) = none := by
  induction pre with
  | nil => simp [clean_data, h]
  | cons a l ih =>
      have hstep : clean_data today (a :: (l ++ it :: post)) =
          match clean_item today a, clean_data today (l ++ it :: post) with
          | some d, some ds => some (d :: ds)
          | _, _ => none := rfl
      rw [List.cons_append, hstep, ih]
      cases clean_item today a <;> rfl

/-- The confirm loop's effect on an existing `transactions` table:
every row is appended with consecutive ids and the reported count is
the number of rows (helper for the confirm claims). -/
theorem confirm_save_spec (rows : List Draft) :
    ∀ (db : DB) (ts : List Txn) (next : Nat),
      db.transactions = some ts →
      (confirm_save db next rows).1.transactions =
          some (ts ++ mkTxns next rows) ∧
      (confirm_save db next rows).1.categories = db.categories ∧
      (confirm_save db next rows).2.2 = rows.length := by
  induction rows with
  | nil => intro db ts next h; simp [confirm_save, mkTxns, h]
  | cons r rest ih =>
      intro db ts next h
      have hins : insert_transaction db next r =
          ({ db with transactions := some (ts ++ [draftToTxn next r]) },
           next + 1) := by
        simp [insert_transaction, h]
      have := ih { db with transactions := some (ts ++ [draftToTxn next r]) }
        (ts ++ [draftToTxn next r]) (next + 1) rfl
      simp only [confirm_save, hins, mkTxns]
      refine ⟨?_, ?_, ?_⟩
      · rw [this.1]; simp
      · rw [this.2.1]
      · rw [this.2.2]; simp [List.length_cons]

/-- The draft the cleaning loop builds for a dict item once
`float(item.get('amount', 0.0))` evaluated to `a`. -/
def cleaned (today : Date) (fs : List (String × JVal)) (a : ℚ) : Draft :=
  { date := cleanDate today (jlookup fs "date"),
    item := (jlookup fs "item").getD (.jstr "未知商品"),
    category := (jlookup fs "category").getD (.jstr "其他"),
    amount := a,
    type := "Expense",
    note := (jlookup fs "note").getD (.jstr "") }

theorem clean_item_jobj (today : Date) (fs : List (String × JVal)) :
    clean_item today (.jobj fs) =
      (pyFloat ((jlookup fs "amount").getD (.jnum 0))).map
        (cleaned today fs) := by
  rcases hp : pyFloat ((jlookup fs "amount").getD (.jnum 0)) with _ | a <;>
    simp only [clean_item, hp, Option.map_none, Option.map_some] <;> rfl

/-- A draft item whose `amount` field is explicitly `null`, with
otherwise well-formed fields. -/
def nullAmountItem : JVal :=
  .jobj [("date", .jstr "2026-01-02"), ("item", .jstr "鸡肉"),
         ("category", .jstr "饮食"), ("amount", .jnull)]

/-- C1 counterexample: a draft row whose `amount` is explicitly `null`
is not kept with amount 0.0. `float(None)` raises an uncaught
`TypeError` (the `try/except` only wraps the date computation), the
cleaning loop aborts, the handler ends in the exception outcome with
the Reconciliation Buffer unchanged, and nothing reaches `confirm`. -/
theorem null_amount_blocks_batch :
    clean_data today0 [nullAmountItem] = none ∧
    handle_analyze ⟨none⟩ today0 (some (.jarr [nullAmountItem]), none) =
      (⟨none⟩, .exn) := ⟨rfl, rfl⟩

/-- C1 (amended): if the `amount` key is absent, the row is kept with
amount 0.0; the confirm loop persists every row it is given unchanged
(appending it to the table, amount included, and counting it). But if
`amount` is present and explicitly `null` or a non-numeric string,
`float()` raises an uncaught exception and the whole batch is dropped:
no row of the batch becomes a draft. -/
theorem amount_coercion_policy :
    (∀ (today : Date) (fs : List (String × JVal)),
        jlookup fs "amount" = none →
        ∃ d, clean_item today (.jobj fs) = some d ∧ d.amount = 0) ∧
    (∀ (today : Date) (fs : List (String × JVal)) (pre post : List JVal),
        jlookup fs "amount" = some .jnull →
        clean_data today (pre ++ .jobj fs :: post) = none) ∧
    (∀ (today : Date) (fs : List (String × JVal)) (s : String)
        (pre post : List JVal),
        jlookup fs "amount" = some (.jstr s) → parseFloatStr s = none →
        clean_data today (pre ++ .jobj fs :: post) = none) ∧
    (∀ (db : DB) (ts : List Txn) (next : Nat) (rows : List Draft),
        db.transactions = some ts →
        (confirm_save db next rows).1.transactions =
            some (ts ++ mkTxns next rows) ∧
        (confirm_save db next rows).2.2 = rows.length) ∧
    (∀ (next : Nat) (rows : List Draft),
        (mkTxns next rows).map Txn.amount = rows.map Draft.amount) := by
  refine ⟨?_, ?_, ?_, ?_, ?_⟩
  · intro today fs h
    refine ⟨cleaned today fs 0, ?_, rfl⟩
    rw [clean_item_jobj, h]
    rfl
  · intro today fs pre post h
    apply clean_data_of_item_none
    rw [clean_item_jobj, h]
    rfl
  · intro today fs s pre post h hs
    apply clean_data_of_item_none
    rw [clean_item_jobj, h]
    simp [pyFloat, hs]
  · intro db ts next rows h
    exact ⟨(confirm_save_spec rows db ts next h).1,
           (confirm_save_spec rows db ts next h).2.2⟩
  · intro next rows
    induction rows generalizing next with
    | nil => rfl
    | cons r rest ih => simp [mkTxns, draftToTxn, ih]

/-- A draft item with no `amount` key at all. -/
def absentAmountFs : List (String × JVal) :=
  [("date", .jstr "2026-01-02"), ("item", .jstr "鸡肉"),
   ("category", .jstr "饮食")]

/-- C1 witness: concrete instances of the amended claim — an absent
amount becomes 0.0, a `null` amount and the non-numeric amount "N/A"
drop the batch, and confirming on the demo database appends the rows. -/
theorem amount_coercion_policy_witness :
    (∃ d, clean_item today0 (.jobj absentAmountFs) = some d ∧
      d.amount = 0) ∧
    clean_data today0 ([] ++ .jobj [("amount", JVal.jnull)] :: []) = none ∧
    clean_data today0 ([] ++ .jobj [("amount", JVal.jstr "N/A")] :: []) =
      none ∧
    (confirm_save demo_db 4 []).1.transactions =
      some (demo_rows ++ mkTxns 4 []) :=
  ⟨amount_coercion_policy.1 today0 absentAmountFs rfl,
   amount_coercion_policy.2.1 today0 [("amount", JVal.jnull)] [] [] rfl,
   amount_coercion_policy.2.2.1 today0 [("amount", JVal.jstr "N/A")] "N/A"
     [] [] rfl rfl,
   (amount_coercion_policy.2.2.2.1 demo_db demo_rows 4 [] rfl).1⟩

/-- The nine default category names: the Category Registry right
after `init_db` seeds a fresh database. -/
def default_cat_names : List String := default_cats.map Prod.fst

/-- A draft item whose category is not in the registry and whose
amount is negative. -/
def oddItem : JVal :=
  .jobj [("date", .jstr "2026-01-02"), ("item", .jstr "dumbbell"),
         ("category", .jstr "健身器材"), ("amount", .jnum (-5))]

/-- The draft the cleaning loop produces for `oddItem`. -/
def oddDraft : Draft :=
  { date := ⟨2026, 1, 2⟩, item := .jstr "dumbbell",
    category := .jstr "健身器材", amount := -5, type := "Expense",
    note := .jstr "" }

/-- C2 counterexample: the cleaning loop does not constrain the
category to the valid list and does not force the amount to be
non-negative — `oddItem` is cleaned into a draft whose category
`健身器材` belongs to no registry entry and whose amount is −5 (the
interpreter prompt is not even given the registry's names, and the
cleaning loop takes `item.get('category', '其他')` unchecked and
`float(...)` unclamped). -/
theorem clean_item_contract_violated :
    clean_item today0 oddItem = some oddDraft ∧
    (¬ ∃ n ∈ default_cat_names, oddDraft.category = JVal.jstr n) ∧
    oddDraft.amount < 0 := by
  refine ⟨rfl, ?_, by norm_num [oddDraft]⟩
  rintro ⟨n, hn, he⟩
  injection he with h
  subst h
  exact absurd hn (by decide)

/-- C2 (amended): every cleaned draft has type exactly `Expense`, its
date is the parsed date defaulting to today when the field is absent
or unparseable, its item and category are the raw field values with
fallbacks `未知商品` / `其他` when absent (the category is NOT
constrained to the supplied list of valid names), and its amount is
the raw numeric value unchanged (so it is NOT forced non-negative). -/
theorem clean_item_contract (today : Date) (fs : List (String × JVal))
    (d : Draft) (h : clean_item today (.jobj fs) = some d) :
    d.type = "Expense" ∧
    d.category = (jlookup fs "category").getD (.jstr "其他") ∧
    d.item = (jlookup fs "item").getD (.jstr "未知商品") ∧
    (jlookup fs "date" = none → d.date = today) ∧
    (∀ jv, jlookup fs "date" = some jv → toDatetime jv = none →
        d.date = today) ∧
    (∀ q, jlookup fs "amount" = some (.jnum q) → d.amount = q) := by
  rw [clean_item_jobj] at h
  rcases hp : pyFloat ((jlookup fs "amount").getD (.jnum 0)) with _ | a
  · rw [hp] at h; cases h
  · rw [hp] at h
    have h2 : cleaned today fs a = d := Option.some.inj h
    subst h2
    refine ⟨rfl, rfl, rfl, ?_, ?_, ?_⟩
    · intro hd; simp [cleaned, cleanDate, hd]
    · intro jv hd htd; simp [cleaned, cleanDate, hd, htd]
    · intro q hq
      rw [hq] at hp
      simp only [Option.getD_some, pyFloat, Option.some.injEq] at hp
      simp [cleaned, hp]

/-- C2 witness: the contract instantiated on `oddItem`. -/
theorem clean_item_contract_witness :
    clean_item today0 oddItem = some oddDraft ∧
    oddDraft.type = "Expense" ∧
    oddDraft.amount = -5 :=
  ⟨rfl, (clean_item_contract today0
      [("date", .jstr "2026-01-02"), ("item", .jstr "dumbbell"),
       ("category", .jstr "健身器材"), ("amount", .jnum (-5))]
      oddDraft rfl).1,
   (clean_item_contract today0
      [("date", .jstr "2026-01-02"), ("item", .jstr "dumbbell"),
       ("category", .jstr "健身器材"), ("amount", .jnum (-5))]
      oddDraft rfl).2.2.2.2.2 (-5) rfl⟩

/-- C7: deleting an id that no stored record carries reports failure
(`false`), leaves the table unchanged and in particular preserves the
stored record count. (The operation itself is modelled from the spec,
see `delete_by_id`.) -/
theorem delete_missing_id (db : DB) (ts : List Txn) (i : Nat)
    (hdb : db.transactions = some ts) (h : ∀ t ∈ ts, t.id ≠ i) :
    delete_by_id db i = (db, false) ∧
    ((delete_by_id db i).1.transactions.getD []).length = ts.length := by
  have hany : ts.any (fun t => t.id == i) = false := by
    simp only [List.any_eq_false, beq_iff_eq]
    exact h
  have h1 : delete_by_id db i = (db, false) := by
    simp [delete_by_id, hdb, hany]
  exact ⟨h1, by rw [h1]; simp [hdb]⟩

/-- C7 witness: deleting id 99 (absent) from the demo database fails
and keeps all three records. -/
theorem delete_missing_id_witness :
    demo_db.transactions = some demo_rows ∧
    delete_by_id demo_db 99 = (demo_db, false) ∧
    ((delete_by_id demo_db 99).1.transactions.getD []).length =
      demo_rows.length :=
  ⟨rfl, delete_missing_id demo_db demo_rows 99 rfl (by
    intro t ht
    fin_cases ht <;> decide)⟩

/-- The startup configuration with every secret absent. -/
def noSecrets : Secrets := { GOOGLE_API_KEY := none, gcp_service_account := none }

/-- C8 counterexample: with no secrets configured at all, the process
does not halt at startup — `st.error` only displays a message, the
script continues with `my_api_key = ""`. Moreover startup reads only
this one secret (the storage layer is the local SQLite file, which
needs no URL or key), so the claim's "three secret values, absence of
any is fatal" fails on this code. -/
theorem startup_not_fatal :
    startup noSecrets =
      { my_api_key := "", error_shown := true, halted := false } ∧
    (startup noSecrets).halted = false :=
  ⟨rfl, rfl⟩

/-- C8 (amended): exactly one secret (`GOOGLE_API_KEY`, the inference
API key) is read at process start — the startup state depends on no
other secret — and its absence is not fatal: an error message is shown
and the script continues with an empty key; when the key is present it
is adopted with no error. -/
theorem startup_reads_one_key :
    (∀ s : Secrets, (startup s).halted = false) ∧
    (∀ s s' : Secrets, s.GOOGLE_API_KEY = s'.GOOGLE_API_KEY →
        startup s = startup s') ∧
    (∀ s : Secrets, s.GOOGLE_API_KEY = none →
        startup s = { my_api_key := "", error_shown := true,
                      halted := false }) ∧
    (∀ (s : Secrets) (k : String), s.GOOGLE_API_KEY = some k →
        startup s = { my_api_key := k, error_shown := false,
                      halted := false }) := by
  refine ⟨?_, ?_, ?_, ?_⟩
  · intro s; cases hs : s.GOOGLE_API_KEY <;> simp [startup, hs]
  · intro s s' hss; simp [startup, hss]
  · intro s hs; simp [startup, hs]
  · intro s k hs; simp [startup, hs]

/-- C8 witness: the amended claim at the concrete empty and populated
configurations. -/
theorem startup_reads_one_key_witness :
    (startup noSecrets).halted = false ∧
    startup noSecrets =
      { my_api_key := "", error_shown := true, halted := false } ∧
    startup { GOOGLE_API_KEY := some "k1", gcp_service_account := none } =
      { my_api_key := "k1", error_shown := false, halted := false } :=
  ⟨startup_reads_one_key.1 noSecrets,
   startup_reads_one_key.2.2.1 noSecrets rfl,
   startup_reads_one_key.2.2.2
     { GOOGLE_API_KEY := some "k1", gcp_service_account := none } "k1" rfl⟩

/-- C9: on a fresh database (neither table exists) `init_db` creates
both tables, leaves `transactions` empty and seeds exactly nine
default category rows; on any database whose `categories` table is
non-empty it changes nothing. -/
theorem init_db_idempotent :
    init_db { transactions := none, categories := none } =
      { transactions := some [], categories := some seeded_cats } ∧
    seeded_cats.length = 9 ∧
    (∀ (db : DB) (ts : List Txn) (cs : List Cat),
        db.transactions = some ts → db.categories = some cs → cs ≠ [] →
        init_db db = db) := by
  refine ⟨rfl, rfl, ?_⟩
  intro db ts cs hts hcs hne
  obtain ⟨t?, c?⟩ := db
  simp only at hts hcs
  subst hts; subst hcs
  simp [init_db, List.length_eq_zero, hne]

/-- C9 witness: `init_db` on a database with one category row changes
nothing. -/
theorem init_db_idempotent_witness :
    init_db { transactions := some [], categories := some [⟨1, "饮食", "Expense"⟩] } =
      { transactions := some [], categories := some [⟨1, "饮食", "Expense"⟩] } :=
  init_db_idempotent.2.2
    { transactions := some [], categories := some [⟨1, "饮食", "Expense"⟩] }
    [] [⟨1, "饮食", "Expense"⟩] rfl rfl (by simp)
